import Mathlib

/-!
Verification of the storm-bolt configuration resolution and cluster
management layer.

The definitions below are a shallow embedding of the Python sources
`storm/bolt/configuration.py` and `storm/bolt/manager.py`.  Python's
implicit environment (the current login name and the current unix time,
used for the default cluster name) is made explicit as `login`/`now`
parameters.  Python truthiness tests (`if name:`, `if disks:`, ...) are
embedded by the `strTruthy`/`intTruthy`/`listTruthy` normalisers which map
falsy values (None, empty string, empty list, zero) to `none`.

External collaborators (the libcloud driver, the hjson text reader, the
c4.utils serialisation layer, storm.thunder's getTypedParameter) are not
part of this repository; where a claim needs them they are modelled from
the specification and marked `Modelled from the spec:` in their doc
comments.
-/

namespace StormBolt

/-! ## Defaults (configuration.py lines 38-41) -/

def DEFAULT_CPUS : Int := 2

def DEFAULT_IMAGE_ID : String := "centos-7.2"

def DEFAULT_NUMBER_OF_NODES : Int := 3

def DEFAULT_RAM : Int := 2048

/-! ## Python truthiness helpers

An optional value is normalised to `none` exactly when Python would
consider it falsy (absent, empty string, empty list, zero). -/

def strTruthy : Option String → Option String
  | some s => if s.isEmpty then none else some s
  | none => none

def intTruthy : Option Int → Option Int
  | some n => if n == 0 then none else some n
  | none => none

def listTruthy (α : Type) : Option (List α) → Option (List α)
  | some l => if l.isEmpty then none else some l
  | none => none

/-! ## ClusterInfo (configuration.py lines 82-128) -/

structure ClusterInfo where
  name : String
  cpus : Int
  disks : List Int
  image : String
  location : Option String
  nodes : List String
  numberOfNodes : Int
  ram : Int
deriving DecidableEq

/-- The default cluster name `"{}-{}".format(os.getlogin(), int(time.time()))`
(configuration.py line 112). -/
def defaultName (login : String) (now : Nat) : String :=
  login ++ "-" ++ toString now

/-- Node name synthesis `["node{}".format(i+1) for i in range(numberOfNodes)]`
(configuration.py lines 123-126); Python's `range` clamps negative
arguments to the empty range, hence `Int.toNat`. -/
def genNodes (numberOfNodes : Int) : List String :=
  (List.range numberOfNodes.toNat).map (fun i => "node" ++ toString (i + 1))

/-- `ClusterInfo.__init__` (configuration.py lines 101-128).
`login`/`now` make the environment of line 112 explicit; optional
parameters are `Option`s, with the Python defaults supplied by callers. -/
def ClusterInfo.init (login : String) (now : Nat) (name : Option String)
    (cpus : Int) (disks : Option (List Int)) (imageId : String)
    (locationId : Option String) (nodes : Option (List String))
    (numberOfNodes : Int) (ram : Int) : ClusterInfo :=
  -- line 112: self.name = name if name else "{}-{}".format(...)
  let realName := match strTruthy name with
    | some s => s
    | none => defaultName login now
  -- line 115: self.disks = [100] + disks if disks else [100]
  let realDisks := match listTruthy Int disks with
    | some l => 100 :: l
    | none => [100]
  -- lines 119-127: if nodes: use them, else generate node1..nodeN
  let nodeState := match listTruthy String nodes with
    | some l => (l, (l.length : Int))
    | none => (genNodes numberOfNodes, numberOfNodes)
  { name := realName
    cpus := cpus
    disks := realDisks
    image := imageId
    location := locationId
    nodes := nodeState.1
    numberOfNodes := nodeState.2
    ram := ram }

/-- `ClusterInfo()` called with no arguments (all Python defaults). -/
def defaultClusterInfo (login : String) (now : Nat) : ClusterInfo :=
  ClusterInfo.init login now none DEFAULT_CPUS none DEFAULT_IMAGE_ID none
    none DEFAULT_NUMBER_OF_NODES DEFAULT_RAM

/-! ## Hjson dictionaries

The hjson library hands `fromHjsonSerializable` a Python dictionary; the
values that occur in the DSL are null, strings, integers, lists and
nested dictionaries. -/

inductive HValue where
  | null
  | str (s : String)
  | int (n : Int)
  | list (l : List HValue)
  | dict (d : List (String × HValue))

abbrev HDict := List (String × HValue)

def asInt : HValue → Option Int
  | HValue.int n => some n
  | _ => none

def asStr : HValue → Option String
  | HValue.str s => some s
  | _ => none

/-- Convert every element of the list, failing on the first mismatch. -/
def convList (α : Type) (f : HValue → Option α) : List HValue → Option (List α)
  | [] => some []
  | v :: t =>
    match f v with
    | some a => Option.map (fun l => a :: l) (convList α f t)
    | none => none

def asIntList : HValue → Option (List Int)
  | HValue.list l => convList Int asInt l
  | _ => none

def asStrList : HValue → Option (List String)
  | HValue.list l => convList String asStr l
  | _ => none

/-- Python truthiness of an hjson value. -/
def hvTruthy : HValue → Bool
  | HValue.null => false
  | HValue.str s => !s.isEmpty
  | HValue.int n => n != 0
  | HValue.list l => !l.isEmpty
  | HValue.dict d => !d.isEmpty

/-- Parse and type errors of the configuration layer. -/
inductive ParseError where
  | malformed
  | typeMismatch
deriving DecidableEq

/-- Modelled from the spec: `storm.thunder.configuration.getTypedParameter`
(an external collaborator, not in this repository).  Looks the key up in
the dictionary; an absent key yields the supplied default, a present key
whose value does not have the declared type is a `ParseError` ("type
mismatch between a declared field and its value"), and is never silently
coerced. -/
def getTypedParameter (α : Type) (d : HDict) (key : String)
    (conv : HValue → Option α) (dflt : Option α) :
    Except ParseError (Option α) :=
  match List.lookup key d with
  | none => Except.ok dflt
  | some v =>
    match conv v with
    | some a => Except.ok (some a)
    | none => Except.error ParseError.typeMismatch

/-- Result of the `fromHjsonSerializable` object hook: either a
`ClusterInfo` (when the dictionary has a `cluster` key) or the dictionary
returned as is (configuration.py line 169). -/
inductive HookResult where
  | cluster (c : ClusterInfo)
  | dict (d : HDict)

/-- `ClusterInfo.fromHjsonSerializable` (configuration.py lines 130-169).
Lines 154-156 recompute the very same `getTypedParameter` call as line
147, so they are a no-op and are represented by the single `disks`
extraction; the unknown-key pass of lines 165-166 only logs warnings. -/
def ClusterInfo.fromHjsonSerializable (login : String) (now : Nat)
    (hjsonDict : HDict) : Except ParseError HookResult :=
  match List.lookup ("cluster") hjsonDict with
  | none => Except.ok (HookResult.dict hjsonDict)
  | some (HValue.dict clusterInfoDict) => do
    let cpus ← getTypedParameter Int clusterInfoDict ("cpus") asInt
      (some DEFAULT_CPUS)
    let disks ← getTypedParameter (List Int) clusterInfoDict ("disks")
      asIntList none
    let imageId ← getTypedParameter String clusterInfoDict ("imageId") asStr
      (some DEFAULT_IMAGE_ID)
    let locationId ← getTypedParameter String clusterInfoDict ("locationId")
      asStr none
    let name ← getTypedParameter String clusterInfoDict ("name") asStr
      (some (defaultName login now))
    let ram ← getTypedParameter Int clusterInfoDict ("ram") asInt
      (some DEFAULT_RAM)
    -- lines 158-163: nodes = clusterInfoDict.get("nodes"); if nodes:
    -- a truthy list becomes explicit names, any other truthy value the count
    let nodeParams ←
      match List.lookup ("nodes") clusterInfoDict with
      | some nv =>
        if hvTruthy nv then
          match nv with
          | HValue.list _ => do
            let ns ← getTypedParameter (List String) clusterInfoDict
              ("nodes") asStrList none
            pure (ns, DEFAULT_NUMBER_OF_NODES)
          | _ => do
            let n ← getTypedParameter Int clusterInfoDict ("nodes") asInt none
            pure ((none : Option (List String)), n.getD DEFAULT_NUMBER_OF_NODES)
        else
          pure ((none : Option (List String)), DEFAULT_NUMBER_OF_NODES)
      | none => pure ((none : Option (List String)), DEFAULT_NUMBER_OF_NODES)
    pure (HookResult.cluster (ClusterInfo.init login now name
      (cpus.getD DEFAULT_CPUS) disks (imageId.getD DEFAULT_IMAGE_ID)
      locationId nodeParams.1 nodeParams.2 (ram.getD DEFAULT_RAM)))
  -- a non-dictionary value under "cluster" crashes the Python attribute
  -- accesses; represented as an error
  | some _ => Except.error ParseError.typeMismatch

/-! ## DSL text layer

Text is embedded as `List Char`.  Brace characters are written via their
code points. -/

def lbrace : Char := Char.ofNat 123

def rbrace : Char := Char.ofNat 125

/-- Python's `\s` whitespace class (the characters relevant here). -/
def isPySpace (c : Char) : Bool :=
  c == ' ' || c == '\t' || c == '\n' || c == '\r'

/-- Does the regex `deployments\s*:` of configuration.py line 74 match at
the head of `s`? -/
def deploymentsHeaderAt (s : List Char) : Bool :=
  List.isPrefixOf (("deployments").toList) s &&
    (match List.dropWhile isPySpace (List.drop 11 s) with
     | ':' :: _ => true
     | _ => false)

/-- Offset of the first match of `re.search(r"^deployments\s*:.*", s,
re.MULTILINE | re.DOTALL)` (configuration.py line 74): the earliest
position that starts a line and matches `deployments\s*:`; with DOTALL
the match then extends to the end of the input. -/
def findDeployments : List Char → Bool → Option Nat
  | [], atLineStart =>
    if atLineStart && deploymentsHeaderAt [] then some 0 else none
  | c :: rest, atLineStart =>
    if atLineStart && deploymentsHeaderAt (c :: rest) then some 0
    else Option.map (fun n => n + 1) (findDeployments rest (c == '\n'))

/-- `str.replace(pat, "")`: remove every non-overlapping occurrence of
`pat`, scanning left to right (configuration.py line 77 with an empty
replacement). -/
def removeAllAux : Nat → List Char → List Char → List Char
  | 0, _, s => s
  | Nat.succ fuel, pat, s =>
    match s with
    | [] => []
    | c :: rest =>
      if pat ≠ [] ∧ List.isPrefixOf pat (c :: rest) = true then
        removeAllAux fuel pat (List.drop pat.length (c :: rest))
      else
        c :: removeAllAux fuel pat rest

def removeAll (pat s : List Char) : List Char :=
  removeAllAux (s.length + 1) pat s

/-! ### Mini hjson reader, modelled from the spec

The text-to-dictionary conversion is performed by the external hjson
library.  The reader below is modelled from the spec's DSL grammar
(sections 4.1 and 6): a `cluster` block of `key: value` pairs between
braces, where a value is a word, an integer, or a bracketed list. -/

def isWordChar (c : Char) : Bool :=
  !isPySpace c && c != ':' && c != lbrace && c != rbrace &&
    c != '[' && c != ']' && c != ','

def skipWs (s : List Char) : List Char := List.dropWhile isPySpace s

def takeWord (s : List Char) : List Char × List Char :=
  (List.takeWhile isWordChar s, List.dropWhile isWordChar s)

/-- A word becomes an integer when it is all digits, a string otherwise. -/
def wordToValue (w : List Char) : HValue :=
  if w ≠ [] ∧ w.all Char.isDigit then
    HValue.int (Int.ofNat (w.foldl (fun acc c => acc * 10 + (c.toNat - 48)) 0))
  else
    HValue.str (String.mk w)

mutual

/-- Modelled from the spec: parse `key: value` pairs up to the closing
brace of a `cluster` block. -/
def parsePairs : Nat → List Char → Option (HDict × List Char)
  | 0, _ => none
  | Nat.succ fuel, s =>
    let s1 := skipWs s
    match s1 with
    | c :: rest =>
      if c == rbrace then some ([], rest)
      else
        let kw := takeWord s1
        if kw.1 = [] then none
        else
          match skipWs kw.2 with
          | ':' :: s2 =>
            match parseValue fuel (skipWs s2) with
            | some vr =>
              match parsePairs fuel vr.2 with
              | some dr => some ((String.mk kw.1, vr.1) :: dr.1, dr.2)
              | none => none
            | none => none
          | _ => none
    | [] => none

/-- Modelled from the spec: a value is a bracketed list or a word. -/
def parseValue : Nat → List Char → Option (HValue × List Char)
  | 0, _ => none
  | Nat.succ fuel, s =>
    match s with
    | '[' :: rest => parseListItems fuel rest []
    | _ =>
      let wr := takeWord s
      if wr.1 = [] then none else some (wordToValue wr.1, wr.2)

/-- Modelled from the spec: comma or whitespace separated list elements up
to the closing bracket. -/
def parseListItems : Nat → List Char → List HValue →
    Option (HValue × List Char)
  | 0, _, _ => none
  | Nat.succ fuel, s, acc =>
    match skipWs s with
    | ']' :: rest => some (HValue.list acc.reverse, rest)
    | ',' :: rest => parseListItems fuel rest acc
    | s1 =>
      let wr := takeWord s1
      if wr.1 = [] then none
      else parseListItems fuel wr.2 (wordToValue wr.1 :: acc)

end

/-- Modelled from the spec: the hjson text-to-dictionary conversion for the
cluster DSL.  Empty input yields an empty dictionary; otherwise the input
must be a `cluster` block between braces. -/
def parseHjsonText (s : List Char) : Option HDict :=
  let t := skipWs s
  if t = [] then some []
  else
    let wr := takeWord t
    if wr.1 = ("cluster").toList then
      match skipWs wr.2 with
      | c :: rest =>
        if c == lbrace then
          match parsePairs (3 * s.length + 9) rest with
          | some dr => if skipWs dr.2 = [] then some [(("cluster"), HValue.dict dr.1)] else none
          | none => none
        else none
      | [] => none
    else none

/-! ### Deployments sub-parser, modelled from the spec -/

/-- A deployment directive: a name plus a mapping of parameters. -/
structure DeploymentDirective where
  name : String
  params : List (String × String)
deriving DecidableEq

/-- Modelled from the spec: parameters `key: value` up to the closing
brace of a directive's parameter block. -/
def parseParams : Nat → List Char → List (String × String) →
    Option (List (String × String) × List Char)
  | 0, _, _ => none
  | Nat.succ fuel, s, acc =>
    match skipWs s with
    | c :: rest =>
      if c == rbrace then some (acc.reverse, rest)
      else
        let kw := takeWord (c :: rest)
        if kw.1 = [] then none
        else
          match skipWs kw.2 with
          | ':' :: s2 =>
            let vw := takeWord (skipWs s2)
            if vw.1 = [] then none
            else parseParams fuel vw.2 ((String.mk kw.1, String.mk vw.1) :: acc)
          | _ => none
    | [] => none

/-- Modelled from the spec: directives up to the closing bracket, each a
name optionally followed by a braced parameter block. -/
def parseDirectives : Nat → List Char → List DeploymentDirective →
    Option (List DeploymentDirective × List Char)
  | 0, _, _ => none
  | Nat.succ fuel, s, acc =>
    match skipWs s with
    | ']' :: rest => some (acc.reverse, rest)
    | s1 =>
      let nw := takeWord s1
      if nw.1 = [] then none
      else
        match skipWs nw.2 with
        | ':' :: s2 =>
          (match skipWs s2 with
           | c :: rest =>
             if c == lbrace then
               match parseParams fuel rest [] with
               | some pr => parseDirectives fuel pr.2
                   (DeploymentDirective.mk (String.mk nw.1) pr.1 :: acc)
               | none => none
             else none
           | [] => none)
        | s3 => parseDirectives fuel s3
            (DeploymentDirective.mk (String.mk nw.1) [] :: acc)

/-- Modelled from the spec: `DeploymentInfos.fromHjson` (external
storm.thunder collaborator) applied to the extracted `deployments:`
section.  The hjson reader treats further top-level content after the
bracketed list as additional keys of the top-level object, so the
directive list stands whatever trails the closing bracket. -/
def parseDeployments (s : List Char) : Option (List DeploymentDirective) :=
  let t := skipWs s
  let wr := takeWord t
  if wr.1 = ("deployments").toList then
    match skipWs wr.2 with
    | ':' :: s2 =>
      (match skipWs s2 with
       | '[' :: rest =>
         (match parseDirectives (3 * s.length + 9) rest [] with
          | some dr => some dr.1
          | none => none)
       | _ => none)
    | _ => none
  else none

/-! ## ConfigurationInfo (configuration.py lines 44-80) -/

/-- The `cluster` attribute of a `ConfigurationInfo`: normally a
`ClusterInfo`, but when the parsed dictionary has no `cluster` key the
object hook hands back the raw dictionary (configuration.py line 169),
and a truthy (non-empty) dictionary is stored as is by `__init__`. -/
inductive ClusterSlot where
  | info (c : ClusterInfo)
  | raw (d : HDict)

/-- The cluster name carried by the slot, when it is a `ClusterInfo`. -/
def ClusterSlot.clusterName : ClusterSlot → Option String
  | ClusterSlot.info c => some c.name
  | ClusterSlot.raw _ => none

/-- The `ClusterInfo` carried by the slot, if any. -/
def ClusterSlot.clusterInfo : ClusterSlot → Option ClusterInfo
  | ClusterSlot.info c => some c
  | ClusterSlot.raw _ => none

structure ConfigurationInfo where
  cluster : ClusterSlot
  deploymentInfos : List DeploymentDirective

/-- `ConfigurationInfo.__init__` (configuration.py lines 53-55):
`self.cluster = clusterInfo if clusterInfo else ClusterInfo()`; a hook
result that is a falsy (empty) dictionary is replaced by a default
`ClusterInfo`. -/
def mkClusterSlot (login : String) (now : Nat) : HookResult → ClusterSlot
  | HookResult.cluster c => ClusterSlot.info c
  | HookResult.dict d =>
    if d.isEmpty then ClusterSlot.info (defaultClusterInfo login now)
    else ClusterSlot.raw d

/-- `ClusterInfo.fromHjson`: the external hjson reader (modelled above)
composed with the `fromHjsonSerializable` object hook. -/
def ClusterInfo.fromHjson (login : String) (now : Nat) (s : List Char) :
    Except ParseError HookResult :=
  match parseHjsonText s with
  | none => Except.error ParseError.malformed
  | some d => ClusterInfo.fromHjsonSerializable login now d

/-- `ConfigurationInfo.fromHjson` (configuration.py lines 57-80): search
for the `deployments` section with the regex of line 74, parse it
independently, remove the matched text from the input (line 77), then
parse the remainder as the cluster block. -/
def ConfigurationInfo.fromHjson (login : String) (now : Nat)
    (s : List Char) : Except ParseError ConfigurationInfo := do
  let extracted := match findDeployments s true with
    | none => (s, (none : Option (List Char)))
    | some i => (removeAll (List.drop i s) s, some (List.drop i s))
  let deps ← match extracted.2 with
    | none => pure []
    | some t =>
      match parseDeployments t with
      | some l => pure l
      | none => Except.error ParseError.malformed
  let hook ← ClusterInfo.fromHjson login now extracted.1
  pure (ConfigurationInfo.mk (mkClusterSlot login now hook) deps)

/-! ## Driver model (manager.py, external libcloud collaborator)

The driver's inventory listings and lookup helpers are modelled from the
spec (section 6): images, locations and sizes are records with string
ids; `get_image` is an exact identifier match and
`ex_get_size_by_attributes` an exact (cpu, ram, disks) triple match. -/

structure NodeImage where
  id : String
  name : String
deriving DecidableEq

structure NodeLocation where
  id : String
  name : String
deriving DecidableEq

structure NodeSize where
  id : String
  name : String
  cpu : Int
  ram : Int
  disks : List Int
deriving DecidableEq

structure Driver where
  images : List NodeImage
  locations : List NodeLocation
  sizes : List NodeSize

/-- Modelled from the spec: `driver.get_image` resolves an image id by
exact identifier match against the image inventory. -/
def Driver.get_image (d : Driver) (imageId : String) : Option NodeImage :=
  List.find? (fun i => i.id == imageId) d.images

/-- Modelled from the spec: `driver.ex_get_size_by_attributes` resolves a
size by exact (cpu, ram, disk capacities) triple match. -/
def Driver.ex_get_size_by_attributes (d : Driver) (cpus ram : Int)
    (disks : List Int) : Option NodeSize :=
  List.find? (fun s => s.cpu == cpus && s.ram == ram && s.disks == disks) d.sizes

/-- The location loop of manager.py lines 103-106: every inventory
location whose id equals the spec's location overwrites `location`, so
the last match wins; an absent spec location (`none`) never equals a
string id. -/
def resolveLocation (d : Driver) (loc : Option String) : Option NodeLocation :=
  List.find? (fun l => loc == some l.id) d.locations.reverse

/-- A cluster as returned by the driver. -/
structure CloudCluster where
  name : String
  nodes : List String
deriving DecidableEq

/-- The request carried by the single `ex_create_cluster` call
(manager.py lines 132-138). -/
structure CreateRequest where
  cluster : String
  image : NodeImage
  location : Option NodeLocation
  names : List String
  size : NodeSize
deriving DecidableEq

/-- Which resolution step failed (manager.py logs an error and returns
`None` at lines 96-98, 107-109 and 126-129). -/
inductive ResolutionError where
  | imageNotFound
  | locationNotFound
  | sizeNotFound
deriving DecidableEq

/-- Everything observable about a `createCluster` run: the returned value,
the list of creation calls issued to the driver, the final state of the
mutated `clusterInfo`, and which resolution step failed if any. -/
structure CreateOutcome where
  result : Option CloudCluster
  calls : List CreateRequest
  finalInfo : ClusterInfo
  error : Option ResolutionError
deriving DecidableEq

/-- Manager.py lines 80-81: `if not clusterInfo: clusterInfo = ClusterInfo()`. -/
def baseInfo (login : String) (now : Nat) : Option ClusterInfo → ClusterInfo
  | some c => c
  | none => defaultClusterInfo login now

/-- Manager.py lines 83-84: `if cluster: clusterInfo.name = cluster`. -/
def applyNameOverride (ci : ClusterInfo) (cluster : Option String) : ClusterInfo :=
  match strTruthy cluster with
  | some s => { ci with name := s }
  | none => ci

/-- Manager.py lines 87-91: cpu override, then disks override with the OS
disk prepended to the new list. -/
def applyShapeOverrides (ci : ClusterInfo) (cpus : Option Int)
    (disks : Option (List Int)) : ClusterInfo :=
  let ci1 := match intTruthy cpus with
    | some n => { ci with cpus := n }
    | none => ci
  match listTruthy Int disks with
  | some l => { ci1 with disks := 100 :: l }
  | none => ci1

/-- Manager.py lines 93-94: `if imageId: clusterInfo.image = imageId`. -/
def applyImageOverride (ci : ClusterInfo) (imageId : Option String) : ClusterInfo :=
  match strTruthy imageId with
  | some s => { ci with image := s }
  | none => ci

/-- Manager.py lines 101-102: `if locationId: clusterInfo.location = locationId`. -/
def applyLocationOverride (ci : ClusterInfo) (locationId : Option String) : ClusterInfo :=
  match strTruthy locationId with
  | some s => { ci with location := some s }
  | none => ci

/-- Manager.py lines 112-120: explicit node names replace the list and the
count is recomputed; otherwise a node count regenerates the names. -/
def applyNodeOverrides (ci : ClusterInfo) (nodes : List String)
    (numberOfNodes : Option Int) : ClusterInfo :=
  if nodes ≠ [] then
    { ci with nodes := nodes, numberOfNodes := (nodes.length : Int) }
  else
    match intTruthy numberOfNodes with
    | some n => { ci with nodes := genNodes n, numberOfNodes := n }
    | none => ci

/-- Manager.py lines 123-124: `if ram: clusterInfo.ram = ram`. -/
def applyRamOverride (ci : ClusterInfo) (ram : Option Int) : ClusterInfo :=
  match intTruthy ram with
  | some n => { ci with ram := n }
  | none => ci

/-- `Bolt.createCluster` (manager.py lines 44-144).  `create` stands for
the external `driver.ex_create_cluster`; `login`/`now` are the
environment of the `ClusterInfo()` default at line 81.  Each failed
lookup logs an error and returns `None` before any creation call. -/
def createCluster (d : Driver) (create : CreateRequest → Option CloudCluster)
    (login : String) (now : Nat) (clusterInfo : Option ClusterInfo)
    (cluster : Option String) (cpus : Option Int) (disks : Option (List Int))
    (imageId : Option String) (locationId : Option String)
    (nodes : List String) (numberOfNodes : Option Int) (ram : Option Int) :
    CreateOutcome :=
  let ci0 := baseInfo login now clusterInfo
  let ci1 := applyNameOverride ci0 cluster
  let ci2 := applyShapeOverrides ci1 cpus disks
  let ci3 := applyImageOverride ci2 imageId
  match d.get_image ci3.image with
  | none => CreateOutcome.mk none [] ci3 (some ResolutionError.imageNotFound)
  | some image =>
    let ci4 := applyLocationOverride ci3 locationId
    match resolveLocation d ci4.location with
    | none => CreateOutcome.mk none [] ci4 (some ResolutionError.locationNotFound)
    | some location =>
      let ci5 := applyNodeOverrides ci4 nodes numberOfNodes
      let ci6 := applyRamOverride ci5 ram
      match d.ex_get_size_by_attributes ci6.cpus ci6.ram ci6.disks with
      | none => CreateOutcome.mk none [] ci6 (some ResolutionError.sizeNotFound)
      | some size =>
        let req := CreateRequest.mk ci6.name image (some location) ci6.nodes size
        CreateOutcome.mk (create req) [req] ci6 none

/-! ## destroyCluster / destroyNode (manager.py lines 146-200) -/

structure CloudNode where
  id : String
  name : String
deriving DecidableEq

/-- The dictionary comprehension of lines 156-159 / 185-188 maps each name
to the last inventory entry bearing it. -/
def lookupByName (α : Type) (getName : α → String) (inventory : List α)
    (n : String) : Option α :=
  List.find? (fun x => getName x == n) inventory.reverse

/-- The validation loop of lines 160-166 / 189-195: collect the objects
for all requested names, or fail at the first unknown name. -/
def collectByName (α : Type) (getName : α → String) (inventory : List α) :
    List String → Option (List α)
  | [] => some []
  | n :: rest =>
    match lookupByName α getName inventory n with
    | some x => Option.map (fun l => x :: l) (collectByName α getName inventory rest)
    | none => none

/-- `Bolt.destroyCluster` (manager.py lines 146-173).  `destroyResult`
stands for the external `cluster.destroy()`.  Returns the Python return
value together with the list of clusters on which destroy was called:
the loop at lines 169-171 calls destroy on every collected cluster and
keeps only the last call's result (`False` when there were none). -/
def destroyCluster (clusters : List CloudCluster)
    (destroyResult : CloudCluster → Bool) (clusterNames : List String) :
    Bool × List CloudCluster :=
  match collectByName CloudCluster (fun c => c.name) clusters clusterNames with
  | none => (false, [])
  | some cs => ((Option.map destroyResult cs.getLast?).getD false, cs)

/-- The short-circuiting `all(driver.destroy_node(node) for node in
destroyNodes)` of lines 197-200: nodes are destroyed in order until the
first failure; the second component lists the destroy calls issued. -/
def allDestroy (destroyResult : CloudNode → Bool) :
    List CloudNode → Bool × List CloudNode
  | [] => (true, [])
  | n :: rest =>
    if destroyResult n then
      let r := allDestroy destroyResult rest
      (r.1, n :: r.2)
    else (false, [n])

/-- `Bolt.destroyNode` (manager.py lines 175-200). -/
def destroyNode (nodes : List CloudNode)
    (destroyResult : CloudNode → Bool) (nodeNames : List String) :
    Bool × List CloudNode :=
  match collectByName CloudNode (fun n => n.name) nodes nodeNames with
  | none => (false, [])
  | some ns => allDestroy destroyResult ns

/-! ## Serialisation round trip (claim C8)

`ClusterInfo` defines no serialisation hook of its own, so the external
c4.utils layer serialises the instance attributes under their attribute
names. -/

/-- Modelled from the spec: the external c4.utils serialisation of a
`ClusterInfo` dumps the instance attributes assigned in `__init__`
(configuration.py lines 112-128) under their attribute names — in
particular the stored `disks` list already containing the OS disk, and
the attribute names `image` / `location` / `numberOfNodes` rather than
the parser's parameter names. -/
def ClusterInfo.toSerializable (c : ClusterInfo) : HDict :=
  [(("cpus"), HValue.int c.cpus),
   (("disks"), HValue.list (c.disks.map HValue.int)),
   (("image"), HValue.str c.image),
   (("location"), match c.location with
     | some l => HValue.str l
     | none => HValue.null),
   (("name"), HValue.str c.name),
   (("nodes"), HValue.list (c.nodes.map HValue.str)),
   (("numberOfNodes"), HValue.int c.numberOfNodes),
   (("ram"), HValue.int c.ram)]

/-- Serialising a configuration (its cluster attribute under the `cluster`
key) and parsing it back through the object hook of configuration.py
lines 130-169. -/
def roundTrip (login : String) (now : Nat) (c : ClusterInfo) :
    Except ParseError HookResult :=
  ClusterInfo.fromHjsonSerializable login now
    [(("cluster"), HValue.dict c.toSerializable)]

/-! ## Fixtures for concrete instances -/

/-- Creation stub echoing the request as a cluster. -/
def stubCreate : CreateRequest → Option CloudCluster :=
  fun req => some (CloudCluster.mk req.cluster req.names)

/-- A driver with empty inventories. -/
def emptyDriver : Driver := Driver.mk [] [] []

/-- A driver with one image, one location and one size. -/
def fixtureDriver : Driver :=
  Driver.mk [NodeImage.mk ("centos-7.2") ("CentOS 7.2")]
    [NodeLocation.mk ("dal09") ("Dallas 9")]
    [NodeSize.mk ("s1") ("small") 2 2048 [100]]

/-- The cluster produced by a successful parse, if any. -/
def parsedCluster (login : String) (now : Nat) (s : List Char) :
    Option ClusterInfo :=
  match ConfigurationInfo.fromHjson login now s with
  | Except.ok cfg => cfg.cluster.clusterInfo
  | Except.error _ => none

/-- The deployment directives produced by a successful parse, if any. -/
def parsedDeployments (login : String) (now : Nat) (s : List Char) :
    Option (List DeploymentDirective) :=
  match ConfigurationInfo.fromHjson login now s with
  | Except.ok cfg => some cfg.deploymentInfos
  | Except.error _ => none

/-- The cluster produced by a round trip, if any. -/
def roundTripCluster (login : String) (now : Nat) (c : ClusterInfo) :
    Option ClusterInfo :=
  match roundTrip login now c with
  | Except.ok (HookResult.cluster c2) => some c2
  | _ => none

/-- The DSL example of the spec with the integer form of `nodes`. -/
def textC7 : List Char :=
  ("cluster \x7b name: demo nodes: 3 disks: [50,50] \x7d").toList

/-- A cluster block with the list form of `nodes`. -/
def textNodesList : List Char :=
  ("cluster \x7b nodes: [alpha,beta] \x7d").toList

/-- The `deployments:` block of the spec example. -/
def deploymentsText : List Char :=
  ("deployments: [\n    ssh.AddAuthorizedKey: \x7b\n        publicKeyPath: ~/.ssh/id_rsa.pub\n    \x7d\n]").toList

/-- Cluster block followed by a trailing deployments block. -/
def textTrailing : List Char := textC7 ++ ('\n' :: deploymentsText)

/-- Deployments block placed before the cluster block. -/
def textLeading : List Char := deploymentsText ++ ('\n' :: textC7)

/-- A fully explicit spec used for the round-trip instances. -/
def c8Spec : ClusterInfo :=
  ClusterInfo.init ("alice") 5 (some "mycluster") 4 (some [50]) ("img-1")
    (some "dal09") (some ["a", "b"]) 3 4096

/-! ## Field preservation lemmas for the override pipeline -/

theorem applyNameOverride_disks (ci : ClusterInfo) (c : Option String) :
    (applyNameOverride ci c).disks = ci.disks := by
  unfold applyNameOverride
  cases strTruthy c <;> rfl

theorem applyShapeOverrides_name (ci : ClusterInfo) (cpus : Option Int)
    (disks : Option (List Int)) :
    (applyShapeOverrides ci cpus disks).name = ci.name := by
  unfold applyShapeOverrides
  cases intTruthy cpus <;> cases listTruthy Int disks <;> rfl

theorem applyShapeOverrides_nodes (ci : ClusterInfo) (cpus : Option Int)
    (disks : Option (List Int)) :
    (applyShapeOverrides ci cpus disks).nodes = ci.nodes := by
  unfold applyShapeOverrides
  cases intTruthy cpus <;> cases listTruthy Int disks <;> rfl

theorem applyShapeOverrides_numberOfNodes (ci : ClusterInfo)
    (cpus : Option Int) (disks : Option (List Int)) :
    (applyShapeOverrides ci cpus disks).numberOfNodes = ci.numberOfNodes := by
  unfold applyShapeOverrides
  cases intTruthy cpus <;> cases listTruthy Int disks <;> rfl

theorem applyImageOverride_disks (ci : ClusterInfo) (i : Option String) :
    (applyImageOverride ci i).disks = ci.disks := by
  unfold applyImageOverride
  cases strTruthy i <;> rfl

theorem applyImageOverride_name (ci : ClusterInfo) (i : Option String) :
    (applyImageOverride ci i).name = ci.name := by
  unfold applyImageOverride
  cases strTruthy i <;> rfl

theorem applyImageOverride_nodes (ci : ClusterInfo) (i : Option String) :
    (applyImageOverride ci i).nodes = ci.nodes := by
  unfold applyImageOverride
  cases strTruthy i <;> rfl

theorem applyImageOverride_numberOfNodes (ci : ClusterInfo) (i : Option String) :
    (applyImageOverride ci i).numberOfNodes = ci.numberOfNodes := by
  unfold applyImageOverride
  cases strTruthy i <;> rfl

theorem applyLocationOverride_disks (ci : ClusterInfo) (l : Option String) :
    (applyLocationOverride ci l).disks = ci.disks := by
  unfold applyLocationOverride
  cases strTruthy l <;> rfl

theorem applyLocationOverride_name (ci : ClusterInfo) (l : Option String) :
    (applyLocationOverride ci l).name = ci.name := by
  unfold applyLocationOverride
  cases strTruthy l <;> rfl

theorem applyLocationOverride_image (ci : ClusterInfo) (l : Option String) :
    (applyLocationOverride ci l).image = ci.image := by
  unfold applyLocationOverride
  cases strTruthy l <;> rfl

theorem applyLocationOverride_nodes (ci : ClusterInfo) (l : Option String) :
    (applyLocationOverride ci l).nodes = ci.nodes := by
  unfold applyLocationOverride
  cases strTruthy l <;> rfl

theorem applyLocationOverride_numberOfNodes (ci : ClusterInfo) (l : Option String) :
    (applyLocationOverride ci l).numberOfNodes = ci.numberOfNodes := by
  unfold applyLocationOverride
  cases strTruthy l <;> rfl

theorem applyNodeOverrides_disks (ci : ClusterInfo) (nodes : List String)
    (n : Option Int) : (applyNodeOverrides ci nodes n).disks = ci.disks := by
  unfold applyNodeOverrides
  split
  · rfl
  · cases intTruthy n <;> rfl

theorem applyNodeOverrides_name (ci : ClusterInfo) (nodes : List String)
    (n : Option Int) : (applyNodeOverrides ci nodes n).name = ci.name := by
  unfold applyNodeOverrides
  split
  · rfl
  · cases intTruthy n <;> rfl

theorem applyRamOverride_disks (ci : ClusterInfo) (r : Option Int) :
    (applyRamOverride ci r).disks = ci.disks := by
  unfold applyRamOverride
  cases intTruthy r <;> rfl

theorem applyRamOverride_name (ci : ClusterInfo) (r : Option Int) :
    (applyRamOverride ci r).name = ci.name := by
  unfold applyRamOverride
  cases intTruthy r <;> rfl

theorem applyRamOverride_nodes (ci : ClusterInfo) (r : Option Int) :
    (applyRamOverride ci r).nodes = ci.nodes := by
  unfold applyRamOverride
  cases intTruthy r <;> rfl

theorem applyRamOverride_numberOfNodes (ci : ClusterInfo) (r : Option Int) :
    (applyRamOverride ci r).numberOfNodes = ci.numberOfNodes := by
  unfold applyRamOverride
  cases intTruthy r <;> rfl

theorem applyNodeOverrides_image (ci : ClusterInfo) (nodes : List String)
    (n : Option Int) : (applyNodeOverrides ci nodes n).image = ci.image := by
  unfold applyNodeOverrides
  split
  · rfl
  · cases intTruthy n <;> rfl

theorem applyNodeOverrides_location (ci : ClusterInfo) (nodes : List String)
    (n : Option Int) : (applyNodeOverrides ci nodes n).location = ci.location := by
  unfold applyNodeOverrides
  split
  · rfl
  · cases intTruthy n <;> rfl

theorem applyRamOverride_image (ci : ClusterInfo) (r : Option Int) :
    (applyRamOverride ci r).image = ci.image := by
  unfold applyRamOverride
  cases intTruthy r <;> rfl

theorem applyRamOverride_location (ci : ClusterInfo) (r : Option Int) :
    (applyRamOverride ci r).location = ci.location := by
  unfold applyRamOverride
  cases intTruthy r <;> rfl

theorem applyNameOverride_nodes (ci : ClusterInfo) (c : Option String) :
    (applyNameOverride ci c).nodes = ci.nodes := by
  unfold applyNameOverride
  cases strTruthy c <;> rfl

theorem applyNameOverride_numberOfNodes (ci : ClusterInfo) (c : Option String) :
    (applyNameOverride ci c).numberOfNodes = ci.numberOfNodes := by
  unfold applyNameOverride
  cases strTruthy c <;> rfl

theorem genNodes_length (n : Int) : (genNodes n).length = n.toNat := by
  simp [genNodes]

/-- The spec invariant relating the node list and the node count. -/
def nodeInv (c : ClusterInfo) : Prop :=
  c.nodes ≠ [] → c.numberOfNodes = (c.nodes.length : Int)

/-- The constructor establishes the node invariant. -/
theorem init_nodeInv (login : String) (now : Nat) (name : Option String)
    (cpus : Int) (disks : Option (List Int)) (imageId : String)
    (locationId : Option String) (nodes : Option (List String))
    (numberOfNodes : Int) (ram : Int) :
    nodeInv (ClusterInfo.init login now name cpus disks imageId locationId
      nodes numberOfNodes ram) := by
  unfold nodeInv ClusterInfo.init
  cases h : listTruthy String nodes with
  | some l => intro _; rfl
  | none =>
    intro hne
    have hlen : (genNodes numberOfNodes).length = numberOfNodes.toNat :=
      genNodes_length numberOfNodes
    have hpos : 0 < (genNodes numberOfNodes).length := by
      dsimp only at hne
      exact List.length_pos.mpr hne
    dsimp only
    rw [hlen]
    omega

theorem init_disks_head (login : String) (now : Nat) (name : Option String)
    (cpus : Int) (disks : Option (List Int)) (imageId : String)
    (locationId : Option String) (nodes : Option (List String))
    (numberOfNodes : Int) (ram : Int) :
    (ClusterInfo.init login now name cpus disks imageId locationId nodes
      numberOfNodes ram).disks.head? = some 100 := by
  unfold ClusterInfo.init
  cases h : listTruthy Int disks <;> rfl

theorem init_disks_some (login : String) (now : Nat) (name : Option String)
    (cpus : Int) (l : List Int) (imageId : String)
    (locationId : Option String) (nodes : Option (List String))
    (numberOfNodes : Int) (ram : Int) (hl : l ≠ []) :
    (ClusterInfo.init login now name cpus (some l) imageId locationId nodes
      numberOfNodes ram).disks = 100 :: l := by
  have h : l.isEmpty = false := by simpa using hl
  simp only [ClusterInfo.init, listTruthy, h]
  rfl

theorem init_name_none (login : String) (now : Nat) (cpus : Int)
    (disks : Option (List Int)) (imageId : String)
    (locationId : Option String) (nodes : Option (List String))
    (numberOfNodes : Int) (ram : Int) :
    (ClusterInfo.init login now none cpus disks imageId locationId nodes
      numberOfNodes ram).name = defaultName login now := rfl

theorem applyShapeOverrides_disks_some (ci : ClusterInfo) (cpus : Option Int)
    (l : List Int) (hl : l ≠ []) :
    (applyShapeOverrides ci cpus (some l)).disks = 100 :: l := by
  have h : l.isEmpty = false := by simpa using hl
  unfold applyShapeOverrides listTruthy
  simp only [h]
  cases intTruthy cpus <;> rfl

theorem applyShapeOverrides_disks_head (ci : ClusterInfo) (cpus : Option Int)
    (disks : Option (List Int)) (h : ci.disks.head? = some 100) :
    (applyShapeOverrides ci cpus disks).disks.head? = some 100 := by
  unfold applyShapeOverrides
  cases hd : listTruthy Int disks with
  | some l => cases intTruthy cpus <;> rfl
  | none => cases intTruthy cpus <;> simpa using h

theorem nodeInv_applyNodeOverrides (ci : ClusterInfo) (nodes : List String)
    (n : Option Int) (h : nodeInv ci) : nodeInv (applyNodeOverrides ci nodes n) := by
  unfold applyNodeOverrides
  split
  · intro _; rfl
  · cases hn : intTruthy n with
    | some k =>
      intro hne
      dsimp only at hne ⊢
      rw [genNodes_length]
      have hpos : 0 < (genNodes k).length := List.length_pos.mpr hne
      rw [genNodes_length] at hpos
      omega
    | none => exact h

/-- An absent location never matches any inventory location id. -/
theorem resolveLocation_none (d : Driver) : resolveLocation d none = none := by
  unfold resolveLocation
  rw [List.find?_eq_none]
  intro l _
  simp

/-- Transport of the node invariant along unchanged node fields. -/
theorem nodeInv_of_eq (a b : ClusterInfo) (hn : b.nodes = a.nodes)
    (hc : b.numberOfNodes = a.numberOfNodes) (h : nodeInv a) : nodeInv b := by
  unfold nodeInv at h ⊢
  rw [hn, hc]
  exact h

/-- Whatever the resolution outcome, the disks carried by the final
cluster info are exactly those left by the shape-override step
(manager.py lines 87-91); no later step touches them. -/
theorem createCluster_finalInfo_disks (d : Driver)
    (create : CreateRequest → Option CloudCluster) (login : String)
    (now : Nat) (clusterInfo : Option ClusterInfo) (cluster : Option String)
    (cpus : Option Int) (disks : Option (List Int)) (imageId : Option String)
    (locationId : Option String) (nodes : List String)
    (numberOfNodes : Option Int) (ram : Option Int) :
    (createCluster d create login now clusterInfo cluster cpus disks imageId
      locationId nodes numberOfNodes ram).finalInfo.disks =
    (applyShapeOverrides (applyNameOverride (baseInfo login now clusterInfo)
      cluster) cpus disks).disks := by
  simp only [createCluster]
  split
  next himg =>
    dsimp only
    rw [applyImageOverride_disks]
  next image himg =>
    split
    next hloc =>
      dsimp only
      rw [applyLocationOverride_disks, applyImageOverride_disks]
    next location hloc =>
      split
      next hsize =>
        dsimp only
        rw [applyRamOverride_disks, applyNodeOverrides_disks,
          applyLocationOverride_disks, applyImageOverride_disks]
      next size hsize =>
        dsimp only
        rw [applyRamOverride_disks, applyNodeOverrides_disks,
          applyLocationOverride_disks, applyImageOverride_disks]

/-- Whatever the resolution outcome, the name carried by the final cluster
info is exactly the one left by the name-override step (manager.py lines
83-84); no later step and no resolution-time default touches it. -/
theorem createCluster_finalInfo_name (d : Driver)
    (create : CreateRequest → Option CloudCluster) (login : String)
    (now : Nat) (clusterInfo : Option ClusterInfo) (cluster : Option String)
    (cpus : Option Int) (disks : Option (List Int)) (imageId : Option String)
    (locationId : Option String) (nodes : List String)
    (numberOfNodes : Option Int) (ram : Option Int) :
    (createCluster d create login now clusterInfo cluster cpus disks imageId
      locationId nodes numberOfNodes ram).finalInfo.name =
    (applyNameOverride (baseInfo login now clusterInfo) cluster).name := by
  simp only [createCluster]
  split
  next himg =>
    dsimp only
    rw [applyImageOverride_name, applyShapeOverrides_name]
  next image himg =>
    split
    next hloc =>
      dsimp only
      rw [applyLocationOverride_name, applyImageOverride_name,
        applyShapeOverrides_name]
    next location hloc =>
      split
      next hsize =>
        dsimp only
        rw [applyRamOverride_name, applyNodeOverrides_name,
          applyLocationOverride_name, applyImageOverride_name,
          applyShapeOverrides_name]
      next size hsize =>
        dsimp only
        rw [applyRamOverride_name, applyNodeOverrides_name,
          applyLocationOverride_name, applyImageOverride_name,
          applyShapeOverrides_name]

/-- The node invariant is preserved by the whole createCluster override
pipeline. -/
theorem createCluster_nodeInv (d : Driver)
    (create : CreateRequest → Option CloudCluster) (login : String)
    (now : Nat) (clusterInfo : Option ClusterInfo) (cluster : Option String)
    (cpus : Option Int) (disks : Option (List Int)) (imageId : Option String)
    (locationId : Option String) (nodes : List String)
    (numberOfNodes : Option Int) (ram : Option Int)
    (h : nodeInv (baseInfo login now clusterInfo)) :
    nodeInv (createCluster d create login now clusterInfo cluster cpus disks
      imageId locationId nodes numberOfNodes ram).finalInfo := by
  have h3 : nodeInv (applyImageOverride (applyShapeOverrides
      (applyNameOverride (baseInfo login now clusterInfo) cluster) cpus disks)
      imageId) := by
    refine nodeInv_of_eq _ _ ?_ ?_ h
    · rw [applyImageOverride_nodes, applyShapeOverrides_nodes,
        applyNameOverride_nodes]
    · rw [applyImageOverride_numberOfNodes, applyShapeOverrides_numberOfNodes,
        applyNameOverride_numberOfNodes]
  simp only [createCluster]
  split
  next himg =>
    dsimp only
    exact h3
  next image himg =>
    have h4 : nodeInv (applyLocationOverride (applyImageOverride
        (applyShapeOverrides (applyNameOverride (baseInfo login now
        clusterInfo) cluster) cpus disks) imageId) locationId) := by
      refine nodeInv_of_eq _ _ ?_ ?_ h3
      · rw [applyLocationOverride_nodes]
      · rw [applyLocationOverride_numberOfNodes]
    have h6 : nodeInv (applyRamOverride (applyNodeOverrides
        (applyLocationOverride (applyImageOverride (applyShapeOverrides
        (applyNameOverride (baseInfo login now clusterInfo) cluster) cpus
        disks) imageId) locationId) nodes numberOfNodes) ram) := by
      refine nodeInv_of_eq _ _ ?_ ?_
        (nodeInv_applyNodeOverrides _ nodes numberOfNodes h4)
      · rw [applyRamOverride_nodes]
      · rw [applyRamOverride_numberOfNodes]
    split
    next hloc =>
      dsimp only
      exact h4
    next location hloc =>
      split
      next hsize =>
        dsimp only
        exact h6
      next size hsize =>
        dsimp only
        exact h6

/-- A `ClusterInfo` produced by the parse hook satisfies the node
invariant: every success path goes through the constructor. -/
theorem fromHjsonSerializable_nodeInv (login : String) (now : Nat)
    (d : HDict) (c : ClusterInfo)
    (h : ClusterInfo.fromHjsonSerializable login now d =
      Except.ok (HookResult.cluster c)) : nodeInv c := by
  unfold ClusterInfo.fromHjsonSerializable at h
  split at h
  · injection h with h1
    exact HookResult.noConfusion h1
  · simp only [bind, Except.bind, pure, Except.pure] at h
    repeat' split at h
    all_goals
      first
        | exact Except.noConfusion h
        | (injection h with h1; injection h1 with h2; subst h2;
           exact init_nodeInv _ _ _ _ _ _ _ _ _ _)
  · exact Except.noConfusion h

/-- When some requested name has no match in the inventory, the
collection loop fails. -/
theorem collectByName_none (α : Type) (getName : α → String)
    (inventory : List α) (names : List String)
    (h : ∃ n ∈ names, lookupByName α getName inventory n = none) :
    collectByName α getName inventory names = none := by
  induction names with
  | nil =>
    rcases h with ⟨n, hn, _⟩
    cases hn
  | cons a t ih =>
    rcases h with ⟨n, hn, hnone⟩
    cases hl : lookupByName α getName inventory a with
    | none => simp [collectByName, hl]
    | some x =>
      rcases List.mem_cons.mp hn with heq | hmem
      · subst heq
        rw [hl] at hnone
        exact Option.noConfusion hnone
      · simp [collectByName, hl, ih ⟨n, hmem, hnone⟩]

theorem convList_asInt_map (l : List Int) :
    convList Int asInt (l.map HValue.int) = some l := by
  induction l with
  | nil => rfl
  | cons a t ih => simp [convList, ih, asInt]

theorem convList_asStr_map (l : List String) :
    convList String asStr (l.map HValue.str) = some l := by
  induction l with
  | nil => rfl
  | cons a t ih => simp [convList, ih, asStr]

/-! ## Claims -/

/-- C1 counterexample: with no locationId given anywhere (the spec's
location is `none` and no CLI override), createCluster does not proceed
past the location step: it fails there before any creation call, even
though the driver has image, location and size inventory.  This refutes
the claim that an absent location resolves to a null location without
error. -/
theorem c1_counterexample :
    (createCluster fixtureDriver stubCreate ("alice") 0
      (some (defaultClusterInfo ("alice") 0)) none none none none none []
      none none).error = some ResolutionError.locationNotFound ∧
    (createCluster fixtureDriver stubCreate ("alice") 0
      (some (defaultClusterInfo ("alice") 0)) none none none none none []
      none none).calls = [] ∧
    (defaultClusterInfo ("alice") 0).location = none := by decide

/-- C1 (amended): location resolution fails exactly when no inventory
location id equals the spec's location value; an absent location (`none`)
never equals any string id, so once the image resolves, a run whose final
location value is absent always fails at the location step and aborts
with zero creation calls — a null location is never passed on. -/
theorem c1_amended_absent_location_is_error (d : Driver)
    (create : CreateRequest → Option CloudCluster) (login : String)
    (now : Nat) (clusterInfo : Option ClusterInfo) (cluster : Option String)
    (cpus : Option Int) (disks : Option (List Int)) (imageId : Option String)
    (locationId : Option String) (nodes : List String)
    (numberOfNodes : Option Int) (ram : Option Int) (out : CreateOutcome)
    (hout : out = createCluster d create login now clusterInfo cluster cpus
      disks imageId locationId nodes numberOfNodes ram)
    (hImg : (d.get_image out.finalInfo.image).isSome = true)
    (hLoc : out.finalInfo.location = none) :
    out.error = some ResolutionError.locationNotFound ∧ out.calls = [] ∧
      out.result = none := by
  subst hout
  revert hImg hLoc
  simp only [createCluster]
  split
  next himg =>
    intro hImg hLoc
    dsimp only at hImg
    rw [himg] at hImg
    exact absurd hImg (by decide)
  next image himg =>
    split
    next hloc =>
      intro _ _
      exact ⟨rfl, rfl, rfl⟩
    next location hloc =>
      split
      next hsize =>
        intro _ hLoc
        dsimp only at hLoc
        rw [applyRamOverride_location, applyNodeOverrides_location] at hLoc
        rw [hLoc, resolveLocation_none] at hloc
        exact Option.noConfusion hloc
      next size hsize =>
        intro _ hLoc
        dsimp only at hLoc
        rw [applyRamOverride_location, applyNodeOverrides_location] at hLoc
        rw [hLoc, resolveLocation_none] at hloc
        exact Option.noConfusion hloc

theorem c1_amended_absent_location_is_error_witness :
    (createCluster fixtureDriver stubCreate ("bob") 5
      (some (defaultClusterInfo ("bob") 5)) none none none none none []
      none none).error = some ResolutionError.locationNotFound ∧
    (createCluster fixtureDriver stubCreate ("bob") 5
      (some (defaultClusterInfo ("bob") 5)) none none none none none []
      none none).calls = [] ∧
    (createCluster fixtureDriver stubCreate ("bob") 5
      (some (defaultClusterInfo ("bob") 5)) none none none none none []
      none none).result = none :=
  c1_amended_absent_location_is_error fixtureDriver stubCreate ("bob") 5
    (some (defaultClusterInfo ("bob") 5)) none none none none none [] none
    none _ rfl (by decide) (by decide)

/-- C2: the first element of the disk list is always 100 after any path
(constructor, file parse through the constructor, or the CLI override in
createCluster), and the OS-disk prepend is applied exactly once to the
final merged value: a CLI override disks=[50] on a spec whose disks were
already [100,100,100,100] yields exactly [100,50]. -/
theorem c2_os_disk_prepend :
    (∀ login now name cpus disks imageId locationId nodesO numberOfNodes ram,
      (ClusterInfo.init login now name cpus disks imageId locationId nodesO
        numberOfNodes ram).disks.head? = some 100) ∧
    (∀ login now name cpus imageId locationId nodesO numberOfNodes ram
      (l : List Int), l ≠ [] →
      (ClusterInfo.init login now name cpus (some l) imageId locationId
        nodesO numberOfNodes ram).disks = 100 :: l) ∧
    (∀ d create login now clusterInfo cluster cpus disks imageId locationId
      nodes numberOfNodes ram,
      (baseInfo login now clusterInfo).disks.head? = some 100 →
      (createCluster d create login now clusterInfo cluster cpus disks
        imageId locationId nodes numberOfNodes ram).finalInfo.disks.head? =
        some 100) ∧
    (∀ d create login now clusterInfo cluster cpus imageId locationId nodes
      numberOfNodes ram (l : List Int), l ≠ [] →
      (createCluster d create login now clusterInfo cluster cpus (some l)
        imageId locationId nodes numberOfNodes ram).finalInfo.disks =
        100 :: l) ∧
    (createCluster emptyDriver stubCreate ("alice") 0
      (some (ClusterInfo.init ("alice") 0 (some "demo") 2
        (some [100, 100, 100]) DEFAULT_IMAGE_ID none none 3 2048))
      none none (some [50]) none none [] none none).finalInfo.disks =
      [100, 50] := by
  refine ⟨?_, ?_, ?_, ?_, ?_⟩
  · intro login now name cpus disks imageId locationId nodesO numberOfNodes ram
    exact init_disks_head login now name cpus disks imageId locationId nodesO
      numberOfNodes ram
  · intro login now name cpus imageId locationId nodesO numberOfNodes ram l hl
    exact init_disks_some login now name cpus l imageId locationId nodesO
      numberOfNodes ram hl
  · intro d create login now clusterInfo cluster cpus disks imageId locationId
      nodes numberOfNodes ram h
    rw [createCluster_finalInfo_disks]
    refine applyShapeOverrides_disks_head _ cpus disks ?_
    rw [applyNameOverride_disks]
    exact h
  · intro d create login now clusterInfo cluster cpus imageId locationId nodes
      numberOfNodes ram l hl
    rw [createCluster_finalInfo_disks]
    exact applyShapeOverrides_disks_some _ cpus l hl
  · decide

theorem c2_os_disk_prepend_witness :
    (ClusterInfo.init ("w") 1 none 2 (some [7]) DEFAULT_IMAGE_ID none none 3
      2048).disks = 100 :: [7] ∧
    (createCluster emptyDriver stubCreate ("w") 1
      (some (defaultClusterInfo ("w") 1)) none none (some [7]) none none []
      none none).finalInfo.disks = 100 :: [7] :=
  ⟨c2_os_disk_prepend.2.1 ("w") 1 none 2 DEFAULT_IMAGE_ID none none 3 2048
    [7] (by decide),
   c2_os_disk_prepend.2.2.2.1 emptyDriver stubCreate ("w") 1
     (some (defaultClusterInfo ("w") 1)) none none none none [] none none
     [7] (by decide)⟩

/-- C3 counterexample: a spec constructed at time 1 and resolved at time 2
carries the construction-time default name, not a resolution-time one —
the default is computed in the constructor, not when createCluster
finalises the specification. -/
theorem c3_counterexample :
    (createCluster emptyDriver stubCreate ("alice") 2
      (some (ClusterInfo.init ("alice") 1 none DEFAULT_CPUS none
        DEFAULT_IMAGE_ID none none DEFAULT_NUMBER_OF_NODES DEFAULT_RAM))
      none none none none none [] none none).finalInfo.name =
      defaultName ("alice") 1 ∧
    defaultName ("alice") 1 ≠ defaultName ("alice") 2 := by decide

/-- C3 (amended): the default name `login-timestamp` is computed exactly
once, at construction (equally parse) time; createCluster with no name
override leaves it unchanged, whatever the resolution-time environment. -/
theorem c3_amended_name_computed_at_construction (login : String) (t1 : Nat)
    (cpus0 : Int) (disks0 : Option (List Int)) (imageId0 : String)
    (locationId0 : Option String) (nodes0 : Option (List String))
    (num0 : Int) (ram0 : Int) (d : Driver)
    (create : CreateRequest → Option CloudCluster) (login2 : String)
    (t2 : Nat) (cpus : Option Int) (disks : Option (List Int))
    (imageId : Option String) (locationId : Option String)
    (nodes : List String) (numberOfNodes : Option Int) (ram : Option Int) :
    (createCluster d create login2 t2
      (some (ClusterInfo.init login t1 none cpus0 disks0 imageId0 locationId0
        nodes0 num0 ram0)) none cpus disks imageId locationId nodes
      numberOfNodes ram).finalInfo.name = defaultName login t1 := by
  rw [createCluster_finalInfo_name]
  have h1 : ∀ ci : ClusterInfo, (applyNameOverride ci none).name = ci.name :=
    fun ci => rfl
  rw [h1]
  exact init_name_none login t1 cpus0 disks0 imageId0 locationId0 nodes0 num0
    ram0

set_option maxRecDepth 10000 in
/-- C4 counterexample: extraction of the deployments section is not
order-independent — when the deployments block precedes the cluster
block, the DOTALL regex swallows the cluster block too, and the parsed
cluster name is the environment default instead of `demo`. -/
theorem c4_counterexample :
    parsedCluster ("alice") 0 textLeading ≠ parsedCluster ("alice") 0 textC7 ∧
    Option.map (fun c => c.name) (parsedCluster ("alice") 0 textLeading) =
      some ("alice-0") ∧
    Option.map (fun c => c.name) (parsedCluster ("alice") 0 textC7) =
      some ("demo") := by decide

set_option maxRecDepth 10000 in
/-- C4 (amended): the regex captures from the first line starting with
`deployments:` to the end of the input, so only a trailing deployments
block leaves the cluster block unaffected; the spec example with a
trailing block yields exactly one directive named ssh.AddAuthorizedKey
with parameter publicKeyPath, and the cluster block parses exactly as
without the block; a leading block removes the cluster text as well. -/
theorem c4_amended_trailing_extraction_only :
    parsedCluster ("alice") 0 textTrailing = parsedCluster ("alice") 0 textC7 ∧
    parsedDeployments ("alice") 0 textTrailing =
      some [DeploymentDirective.mk ("ssh.AddAuthorizedKey")
        [(("publicKeyPath"), ("~/.ssh/id_rsa.pub"))]] ∧
    parsedCluster ("alice") 0 textC7 = some (ClusterInfo.mk ("demo") 2
      [100, 50, 50] DEFAULT_IMAGE_ID none ["node1", "node2", "node3"] 3
      2048) ∧
    parsedCluster ("alice") 0 textLeading = some (defaultClusterInfo
      ("alice") 0) := by decide

/-- C5: when the requested image id has no exact match the run fails with
the image resolution error, when no size matches the final (cpu, ram,
disks) triple the run fails, the size error is reported when image and
location resolve, and every resolution failure aborts with zero creation
calls and a `None` result. -/
theorem c5_resolution_failure_aborts (d : Driver)
    (create : CreateRequest → Option CloudCluster) (login : String)
    (now : Nat) (clusterInfo : Option ClusterInfo) (cluster : Option String)
    (cpus : Option Int) (disks : Option (List Int)) (imageId : Option String)
    (locationId : Option String) (nodes : List String)
    (numberOfNodes : Option Int) (ram : Option Int) (out : CreateOutcome)
    (hout : out = createCluster d create login now clusterInfo cluster cpus
      disks imageId locationId nodes numberOfNodes ram) :
    (d.get_image out.finalInfo.image = none →
      out.error = some ResolutionError.imageNotFound ∧ out.calls = [] ∧
        out.result = none) ∧
    (d.ex_get_size_by_attributes out.finalInfo.cpus out.finalInfo.ram
        out.finalInfo.disks = none →
      out.calls = [] ∧ out.result = none ∧ out.error.isSome = true) ∧
    ((d.get_image out.finalInfo.image).isSome = true →
      (resolveLocation d out.finalInfo.location).isSome = true →
      d.ex_get_size_by_attributes out.finalInfo.cpus out.finalInfo.ram
        out.finalInfo.disks = none →
      out.error = some ResolutionError.sizeNotFound) ∧
    (out.error.isSome = true → out.calls = [] ∧ out.result = none) := by
  subst hout
  simp only [createCluster]
  split
  next himg =>
    dsimp only
    refine ⟨fun _ => ⟨rfl, rfl, rfl⟩, fun _ => ⟨rfl, rfl, rfl⟩, ?_,
      fun _ => ⟨rfl, rfl⟩⟩
    intro hImg _ _
    rw [himg] at hImg
    exact absurd hImg (by decide)
  next image himg =>
    split
    next hloc =>
      dsimp only
      refine ⟨?_, fun _ => ⟨rfl, rfl, rfl⟩, ?_, fun _ => ⟨rfl, rfl⟩⟩
      · intro hImg
        rw [applyLocationOverride_image, himg] at hImg
        exact Option.noConfusion hImg
      · intro _ hLoc _
        rw [hloc] at hLoc
        exact absurd hLoc (by decide)
    next location hloc =>
      split
      next hsize =>
        dsimp only
        refine ⟨?_, fun _ => ⟨rfl, rfl, rfl⟩, fun _ _ _ => rfl,
          fun _ => ⟨rfl, rfl⟩⟩
        intro hImg
        rw [applyRamOverride_image, applyNodeOverrides_image,
          applyLocationOverride_image, himg] at hImg
        exact Option.noConfusion hImg
      next size hsize =>
        dsimp only
        refine ⟨?_, ?_, ?_, ?_⟩
        · intro hImg
          rw [applyRamOverride_image, applyNodeOverrides_image,
            applyLocationOverride_image, himg] at hImg
          exact Option.noConfusion hImg
        · intro hSize
          rw [hsize] at hSize
          exact Option.noConfusion hSize
        · intro _ _ hSize
          rw [hsize] at hSize
          exact Option.noConfusion hSize
        · intro h
          exact absurd h (by decide)

theorem c5_resolution_failure_aborts_witness :
    (createCluster emptyDriver stubCreate ("w") 0
      (some (defaultClusterInfo ("w") 0)) none none none none none [] none
      none).error = some ResolutionError.imageNotFound ∧
    (createCluster emptyDriver stubCreate ("w") 0
      (some (defaultClusterInfo ("w") 0)) none none none none none [] none
      none).calls = [] ∧
    (createCluster emptyDriver stubCreate ("w") 0
      (some (defaultClusterInfo ("w") 0)) none none none none none [] none
      none).result = none :=
  (c5_resolution_failure_aborts emptyDriver stubCreate ("w") 0
    (some (defaultClusterInfo ("w") 0)) none none none none none [] none
    none _ rfl).1 (by decide)

/-- C6: whenever the node-name list is non-empty the node count equals its
length, and this is established by the constructor (hence by parsing,
which always goes through the constructor) and preserved by the
createCluster overrides; explicit CLI names replace the list with the
count recomputed as their length, and a CLI count regenerates the names. -/
theorem c6_node_count_invariant :
    (∀ login now name cpus disks imageId locationId nodesO numberOfNodes ram,
      nodeInv (ClusterInfo.init login now name cpus disks imageId locationId
        nodesO numberOfNodes ram)) ∧
    (∀ login now d c, ClusterInfo.fromHjsonSerializable login now d =
      Except.ok (HookResult.cluster c) → nodeInv c) ∧
    (∀ ci nodes n, nodeInv ci → nodeInv (applyNodeOverrides ci nodes n)) ∧
    (∀ ci nodes n, nodes ≠ [] →
      (applyNodeOverrides ci nodes n).nodes = nodes ∧
      (applyNodeOverrides ci nodes n).numberOfNodes = (nodes.length : Int)) ∧
    (∀ ci n, n ≠ 0 →
      (applyNodeOverrides ci [] (some n)).nodes = genNodes n ∧
      (applyNodeOverrides ci [] (some n)).numberOfNodes = n) ∧
    (∀ d create login now clusterInfo cluster cpus disks imageId locationId
      nodes numberOfNodes ram, nodeInv (baseInfo login now clusterInfo) →
      nodeInv (createCluster d create login now clusterInfo cluster cpus
        disks imageId locationId nodes numberOfNodes ram).finalInfo) := by
  refine ⟨?_, ?_, ?_, ?_, ?_, ?_⟩
  · intro login now name cpus disks imageId locationId nodesO numberOfNodes ram
    exact init_nodeInv login now name cpus disks imageId locationId nodesO
      numberOfNodes ram
  · intro login now d c h
    exact fromHjsonSerializable_nodeInv login now d c h
  · intro ci nodes n h
    exact nodeInv_applyNodeOverrides ci nodes n h
  · intro ci nodes n h
    unfold applyNodeOverrides
    rw [if_pos h]
    exact ⟨rfl, rfl⟩
  · intro ci n hn
    have hbeq : (n == 0) = false := by simpa using hn
    unfold applyNodeOverrides intTruthy
    rw [if_neg (by simp)]
    simp [hbeq]
  · intro d create login now clusterInfo cluster cpus disks imageId
      locationId nodes numberOfNodes ram h
    exact createCluster_nodeInv d create login now clusterInfo cluster cpus
      disks imageId locationId nodes numberOfNodes ram h

theorem c6_node_count_invariant_witness :
    (ClusterInfo.init ("w") 0 none 2 none DEFAULT_IMAGE_ID none
      (some ["x", "y"]) 3 2048).numberOfNodes =
    ((ClusterInfo.init ("w") 0 none 2 none DEFAULT_IMAGE_ID none
      (some ["x", "y"]) 3 2048).nodes.length : Int) :=
  c6_node_count_invariant.1 ("w") 0 none 2 none DEFAULT_IMAGE_ID none
    (some ["x", "y"]) 3 2048 (by decide)

/-- C7: parsing the DSL text `cluster ... name: demo nodes: 3 disks:
[50,50] ...` yields name demo, node count 3, disks [100,50,50] and
synthesized names node1..node3 (integer form of `nodes` dispatched to a
count); the list form of `nodes` becomes explicit names with the count
recomputed. -/
theorem c7_dsl_parse_example :
    parsedCluster ("alice") 0 textC7 = some (ClusterInfo.mk ("demo") 2
      [100, 50, 50] DEFAULT_IMAGE_ID none ["node1", "node2", "node3"] 3
      2048) ∧
    parsedCluster ("alice") 0 textNodesList = some (ClusterInfo.mk
      ("alice-0") 2 [100] DEFAULT_IMAGE_ID none ["alpha", "beta"] 2 2048) := by
  decide

/-- C8 counterexample: the round trip does not preserve the disk list even
with an explicitly set name: the serialised attribute already contains
the OS disk and the parser prepends another one, [100,50] becoming
[100,100,50]. -/
theorem c8_counterexample :
    roundTripCluster ("bob") 9 c8Spec ≠ some c8Spec ∧
    c8Spec.name = "mycluster" ∧
    c8Spec.disks = [100, 50] ∧
    Option.map (fun c => c.disks) (roundTripCluster ("bob") 9 c8Spec) =
      some [100, 100, 50] := by decide

/-- C8 (amended): the round trip preserves name, cpus, ram and the node
list (with the count recomputed as its length), but prepends a second OS
disk to the already-prepended disk list and resets the image and location
to their defaults, because the serialised attribute keys (image,
location) differ from the parser's parameter keys (imageId, locationId). -/
theorem c8_amended_round_trip (login2 : String) (now2 : Nat)
    (c : ClusterInfo) (hname : c.name ≠ "") (hdisks : c.disks ≠ [])
    (hnodes : c.nodes ≠ []) :
    roundTrip login2 now2 c = Except.ok (HookResult.cluster
      (ClusterInfo.mk c.name c.cpus (100 :: c.disks) DEFAULT_IMAGE_ID none
        c.nodes (c.nodes.length : Int) c.ram)) := by
  have hname2 : c.name.isEmpty = false := by
    rw [Bool.eq_false_iff]
    intro hn
    exact hname ((String.isEmpty_iff _).mp hn)
  have hdisks2 : c.disks.isEmpty = false := by simpa using hdisks
  have hnodes2 : (c.nodes.map HValue.str).isEmpty = false := by
    simp [hnodes]
  simp [roundTrip, ClusterInfo.fromHjsonSerializable,
    ClusterInfo.toSerializable, List.lookup, getTypedParameter,
    asInt, asStr, asIntList, asStrList, hvTruthy, bind, Except.bind,
    pure, Except.pure, convList_asInt_map, convList_asStr_map,
    Option.getD, hnodes2, hname2, hdisks2,
    ClusterInfo.init, strTruthy, listTruthy, hnodes]

theorem c8_amended_round_trip_witness :
    roundTrip ("bob") 9 c8Spec = Except.ok (HookResult.cluster
      (ClusterInfo.mk c8Spec.name c8Spec.cpus (100 :: c8Spec.disks)
        DEFAULT_IMAGE_ID none c8Spec.nodes (c8Spec.nodes.length : Int)
        c8Spec.ram)) :=
  c8_amended_round_trip ("bob") 9 c8Spec (by decide) (by decide) (by decide)

/-- C9: destroyCluster and destroyNode validate every requested name
against the inventory before issuing any destroy call: when some name is
unknown, the result is False and the list of issued destroy calls is
empty. -/
theorem c9_destroy_validates_first (clusters : List CloudCluster)
    (destroyC : CloudCluster → Bool) (clusterNames : List String)
    (nodeInventory : List CloudNode) (destroyN : CloudNode → Bool)
    (nodeNames : List String)
    (hc : ∃ n ∈ clusterNames,
      lookupByName CloudCluster (fun c => c.name) clusters n = none)
    (hn : ∃ n ∈ nodeNames,
      lookupByName CloudNode (fun x => x.name) nodeInventory n = none) :
    destroyCluster clusters destroyC clusterNames = (false, []) ∧
    destroyNode nodeInventory destroyN nodeNames = (false, []) := by
  constructor
  · unfold destroyCluster
    rw [collectByName_none CloudCluster (fun c => c.name) clusters
      clusterNames hc]
  · unfold destroyNode
    rw [collectByName_none CloudNode (fun x => x.name) nodeInventory
      nodeNames hn]

theorem c9_destroy_validates_first_witness :
    destroyCluster [CloudCluster.mk ("c1") ["n1"]] (fun _ => true)
      [("c1"), ("ghost")] = (false, []) ∧
    destroyNode [CloudNode.mk ("i1") ("n1")] (fun _ => true) [("ghost")] =
      (false, []) :=
  c9_destroy_validates_first [CloudCluster.mk ("c1") ["n1"]] (fun _ => true)
    [("c1"), ("ghost")] [CloudNode.mk ("i1") ("n1")] (fun _ => true)
    [("ghost")] (by decide) (by decide)

/-- C10: a spec constructed with no node names and no node count defaults
to exactly three nodes named node1, node2, node3, with node count 3. -/
theorem c10_default_three_nodes (login : String) (now : Nat)
    (name : Option String) (cpus : Int) (disks : Option (List Int))
    (imageId : String) (locationId : Option String) (ram : Int) :
    (ClusterInfo.init login now name cpus disks imageId locationId none
      DEFAULT_NUMBER_OF_NODES ram).nodes = ["node1", "node2", "node3"] ∧
    (ClusterInfo.init login now name cpus disks imageId locationId none
      DEFAULT_NUMBER_OF_NODES ram).numberOfNodes = 3 := by
  exact ⟨rfl, rfl⟩

end StormBolt
